import Mathlib

/-!
Shallow embedding of the core pipeline of `src/main.cpp` (class `WeatherApp`
of Air-PollutionApp).

Modelling conventions, chosen to follow the C++ source line by line:

* Machine doubles are modelled as exact rationals (`ℚ`).  JSON numbers are
  always finite (a JSON text has no `NaN`/`Inf` literal and `nlohmann::json`
  rejects them on parsing), so every `double` the program computes with is
  obtained from finite JSON numbers; the exceptional paths (a `null` inside a
  value array, a non-number where a number is expected) are modelled as the
  exceptions `nlohmann::json` throws, not as `NaN`s.  The model's arithmetic
  is exact while the source's IEEE-double `accumulate`/division rounds, so no
  theorem below asserts an order relation involving the computed mean;
  comparison-and-selection facts (min/max) and control flow are unaffected by
  rounding and carry over faithfully.
* A `nlohmann::json` value is the inductive `Json` below.  Object member
  order is irrelevant to every lookup the program performs (`nlohmann` keeps
  objects sorted by key; we build concrete objects in that sorted order).
* `get<std::vector<double>>` / `get<std::vector<std::string>>` throw
  `type_error` when the value is not an array of the element type; this is
  `Err.typeError`.
* `std::minmax_element` on an empty range returns the end iterator and the
  source dereferences it unconditionally (line 136 of `main.cpp`); that is
  undefined behaviour, modelled by the explicit error `Err.ubEmptyDeref`.
  Likewise `timeData[i]` past the end in `createChart` is `Err.ubIndexOob`.
  No theorem below relies on program state after one of these UB points.
* The C++ member map `parameterStats` may retain entries inserted before an
  exception aborts `displayAirQualityData`; the `Except` model discards the
  partial state on error.  Every theorem below concerns either the non-error
  path or the mere fact of the abort, so nothing depends on that state.
-/

/-- A parsed `nlohmann::json` value. -/
inductive Json where
  | null : Json
  | num (q : ℚ) : Json
  | str (s : String) : Json
  | arr (xs : List Json) : Json
  | obj (kvs : List (String × Json)) : Json

namespace Json

/-- Key lookup in a member list (string comparison as `std::map::find`
does; `nlohmann` objects have unique keys). -/
def lookupKV : List (String × Json) → String → Option Json
  | [], _ => none
  | (k', v) :: rest, k => if k = k' then some v else lookupKV rest k

/-- Key lookup in an object. -/
def find? : Json → String → Option Json
  | .obj kvs, k => lookupKV kvs k
  | _, _ => none

/-- `j.contains(k)` of `nlohmann::json`. -/
def hasKey (j : Json) (k : String) : Bool :=
  (j.find? k).isSome

/-- Non-const `operator[]` on an object: a missing key is created holding
`null` and that `null` is returned.  (The insertion into the copy is
observationally irrelevant here: the only later reader of a key read this
way is reached only when the conversion of the returned value succeeded,
hence when the key already existed.) -/
def indexOrNull (j : Json) (k : String) : Json :=
  (j.find? k).getD .null

/-- `empty()` of `nlohmann::json`: `true` for `null` and for empty
arrays/objects, `false` for every other value. -/
def isEmptyVal : Json → Bool
  | .null => true
  | .arr xs => xs.isEmpty
  | .obj kvs => kvs.isEmpty
  | .num _ => false
  | .str _ => false

end Json

/-- Exceptions (and the two undefined-behaviour points, kept distinct). -/
inductive Err where
  | typeError : Err
  | ubEmptyDeref : Err
  | ubIndexOob : Err
deriving DecidableEq, Repr

/-- `j.get<double>()`: only a JSON number converts; anything else throws. -/
def getNum : Json → Except Err ℚ
  | .num q => .ok q
  | _ => .error .typeError

/-- `j.get<std::string>()` / `QString::fromStdString(j)`. -/
def getString : Json → Except Err String
  | .str s => .ok s
  | _ => .error .typeError

/-- Element-by-element conversion of an array's members to `double`,
stopping at the first element that throws. -/
def getNumList : List Json → Except Err (List ℚ)
  | [] => .ok []
  | x :: xs =>
    match getNum x with
    | .error e => .error e
    | .ok q =>
      match getNumList xs with
      | .error e => .error e
      | .ok qs => .ok (q :: qs)

/-- Element-by-element conversion of an array's members to `std::string`,
stopping at the first element that throws. -/
def getStrList : List Json → Except Err (List String)
  | [] => .ok []
  | x :: xs =>
    match getString x with
    | .error e => .error e
    | .ok s =>
      match getStrList xs with
      | .error e => .error e
      | .ok ss => .ok (s :: ss)

/-- `j.get<std::vector<double>>()`: the value must be an array whose every
element is a number; a `null` element (the API's representation of an absent
reading) throws `type_error`. -/
def getVecNum : Json → Except Err (List ℚ)
  | .arr xs => getNumList xs
  | _ => .error .typeError

/-- `j.get<std::vector<std::string>>()`. -/
def getVecStr : Json → Except Err (List String)
  | .arr xs => getStrList xs
  | _ => .error .typeError

/-- The statistics record stored in `parameterStats`
(`struct ParameterStats { double min; double max; double avg; }`). -/
structure ParameterStats where
  min : ℚ
  max : ℚ
  avg : ℚ
deriving DecidableEq, Repr

/-- One step of the running (minimum, maximum) scan of
`std::minmax_element` with the default `<`. -/
def minmaxStep (mm : ℚ × ℚ) (v : ℚ) : ℚ × ℚ :=
  (if v < mm.1 then v else mm.1, if v < mm.2 then mm.2 else v)

/-- `std::minmax_element(values.begin(), values.end())`, dereferenced:
`none` on an empty range (where the source would dereference the end
iterator). -/
def minmaxElement : List ℚ → Option (ℚ × ℚ)
  | [] => none
  | x :: xs => some (xs.foldl minmaxStep (x, x))

/-- Lines 135–138 of `main.cpp`: `minmax_element` over the whole vector,
then `std::accumulate(values.begin(), values.end(), 0.0) / values.size()`
(left-to-right summation).  No value is filtered out.  On an empty vector
the source dereferences the end iterator (UB) before reaching the division.
The sum and division are exact here, unlike the source's IEEE doubles whose
rounding can place the computed mean outside `[min, max]`; see
`summarizeValues_ok_minmax` for what is and is not asserted about `avg`. -/
def summarizeValues (values : List ℚ) : Except Err ParameterStats :=
  match minmaxElement values with
  | none => .error .ubEmptyDeref
  | some (mn, mx) => .ok ⟨mn, mx, (values.foldl (· + ·) 0) / (values.length : ℚ)⟩

/-- The statistics engine as applied to one parameter's raw JSON value
array: the `get<std::vector<double>>` conversion of line 132 followed by
lines 135–138. -/
def summarize (values : List Json) : Except Err ParameterStats :=
  match getVecNum (.arr values) with
  | .error e => .error e
  | .ok qs => summarizeValues qs

/-- The `QMap<QString, ParameterStats>` member, kept sorted by key as
`QMap` is. -/
abbrev StatsMap := List (String × ParameterStats)

namespace StatsMap

/-- `parameterStats[key] = value` on a `QMap`: insert or replace, keeping
keys sorted. -/
def insert : StatsMap → String → ParameterStats → StatsMap
  | [], k, v => [(k, v)]
  | (k', v') :: rest, k, v =>
    if k < k' then (k, v) :: (k', v') :: rest
    else if k = k' then (k, v) :: rest
    else (k', v') :: insert rest k v

/-- Lookup in the map. -/
def find? : StatsMap → String → Option ParameterStats
  | [], _ => none
  | (k', v') :: rest, k => if k = k' then some v' else find? rest k

end StatsMap

/-- The mutable members of `WeatherApp` that the pipeline reads and writes
(display widgets are modelled by the outputs of the functions below). -/
structure AppState where
  currentLocation : String
  currentCountry : String
  parameterStats : StatsMap
deriving DecidableEq, Repr

/-- `createChart` (lines 152–186): iterates `i` over `values` and reads
`timeData[i]`; when `values` is longer than `timeData` this indexes the
vector out of bounds (UB).  Chart construction itself has no effect on the
pipeline state. -/
def createChart (timeData : List String) (values : List ℚ) : Except Err Unit :=
  if values.length ≤ timeData.length then .ok () else .error .ubIndexOob

/-- `processParameter` (lines 129–149).  Returns the updated
`parameterStats` map and whether the parameter was processed (statistics
appended to `statsDisplay` and a chart created) or skipped by the guard of
line 130.  Note: no length comparison between the value array and the
timestamp array is performed. -/
def processParameter (hourly : Json) (param : String) (stats : StatsMap) :
    Except Err (StatsMap × Bool) :=
  match hourly.find? param with
  | none => .ok (stats, false)
  | some .null => .ok (stats, false)
  | some pv =>
    match getVecNum pv with
    | .error e => .error e
    | .ok values =>
      match hourly.find? "time" with
      | none => .error .typeError
      | some tj =>
        match getVecStr tj with
        | .error e => .error e
        | .ok timeData =>
          match summarizeValues values with
          | .error e => .error e
          | .ok ps =>
            match createChart timeData values with
            | .error e => .error e
            | .ok _ => .ok (stats.insert param ps, true)

/-- What `displayAirQualityData` leaves behind: the state (with the
possibly-extended `parameterStats`; the text panels and charts were cleared
and refilled), the parameters whose statistics were displayed, in order,
and whether the location/station lines were appended. -/
structure DisplayResult where
  state : AppState
  shown : List String
  weatherShown : Bool
deriving DecidableEq, Repr

/-- `displayAirQualityData` (lines 108–126).  Clears `weatherDisplay`, the
charts and `statsDisplay` — but not `parameterStats`.  When the document
has no `"hourly"` member nothing further happens.  Otherwise line 115 reads
`hourly["time"]` as a string vector (throwing on failure), and the three
parameters are processed in sequence; an exception from any of them aborts
the whole display (there is no per-parameter catch). -/
def displayAirQualityData (s : AppState) (data : Json) : Except Err DisplayResult :=
  match data.find? "hourly" with
  | none => .ok ⟨s, [], false⟩
  | some hourly =>
    match getVecStr (hourly.indexOrNull "time") with
    | .error e => .error e
    | .ok _timeData =>
      match processParameter hourly "pm10" s.parameterStats with
      | .error e => .error e
      | .ok (st1, b1) =>
        match processParameter hourly "pm2_5" st1 with
        | .error e => .error e
        | .ok (st2, b2) =>
          match processParameter hourly "nitrogen_dioxide" st2 with
          | .error e => .error e
          | .ok (st3, b3) =>
            .ok ⟨{ s with parameterStats := st3 },
                 (if b1 then ["pm10"] else []) ++ (if b2 then ["pm2_5"] else [])
                   ++ (if b3 then ["nitrogen_dioxide"] else []),
                 true⟩

/-- The `"statistics"` object written by `saveToJsonFile` (lines 205–215):
one member per `parameterStats` entry, each `{avg, max, min}` (keys listed
here in `nlohmann`'s sorted order). -/
def statsToJson (stats : StatsMap) : Json :=
  .obj (stats.map fun kv =>
    (kv.1, .obj [("avg", .num kv.2.avg), ("max", .num kv.2.max), ("min", .num kv.2.min)]))

/-- `saveToJsonFile` (lines 198–224): the JSON object written to the file
(members in `nlohmann`'s sorted key order). -/
def saveToJsonFile (s : AppState) (data : Json) : Json :=
  .obj [("air_quality_data", data),
        ("location", .str s.currentLocation),
        ("station", .str s.currentCountry),
        ("statistics", statsToJson s.parameterStats)]

/-- Outcomes of `loadFromFile` distinguishable by the user: the
`"Nieprawidłowy format pliku JSON"` warning (the spec's
`InvalidFileFormatError`) versus an exception caught by the generic
handler. -/
inductive LoadErr where
  | invalidFileFormat : LoadErr
  | processing (e : Err) : LoadErr
deriving DecidableEq, Repr

/-- `loadFromFile` (lines 87–105), after the file has been parsed to
`data`.  All three top-level members must be present, else the invalid
format warning is shown and the members of `WeatherApp` are left untouched.
Otherwise `currentLocation`/`currentCountry` are taken from the file and
the `"air_quality_data"` member is displayed (which recomputes statistics). -/
def loadFromFile (s : AppState) (data : Json) :
    Except LoadErr (AppState × List String) :=
  if data.hasKey "location" && data.hasKey "station" && data.hasKey "air_quality_data" then
    match getString (data.indexOrNull "location") with
    | .error e => .error (.processing e)
    | .ok loc =>
      match getString (data.indexOrNull "station") with
      | .error e => .error (.processing e)
      | .ok st =>
        match displayAirQualityData { s with currentLocation := loc, currentCountry := st }
                (data.indexOrNull "air_quality_data") with
        | .error e => .error (.processing e)
        | .ok r => .ok (r.state, r.shown)
  else .error .invalidFileFormat

/-- `QString::trimmed()` on the address input: strip leading and trailing
whitespace. -/
def qtrimmed (s : String) : String :=
  String.mk (((s.data.dropWhile Char.isWhitespace).reverse.dropWhile Char.isWhitespace).reverse)

/-- Outcome of `fetchAirQualityData` (lines 34–43): either the warning
dialog with no request issued, or exactly one geocoding request for the
trimmed address. -/
inductive FetchOutcome where
  | invalidInput : FetchOutcome
  | geocodeRequest (address : String) : FetchOutcome
deriving DecidableEq, Repr

/-- `fetchAirQualityData` (lines 34–43): trim the input; an empty result
shows the warning and returns before any network call, otherwise the one
geocoding request is issued. -/
def fetchAirQualityData (input : String) : FetchOutcome :=
  let address := qtrimmed input
  if address.isEmpty then .invalidInput else .geocodeRequest address

/-- `results[0]` on the non-empty `results` value (non-const `operator[]`
with an integer argument: valid on arrays, throws on other non-null types;
the null and empty cases are unreachable past the `empty()` guard). -/
def jsonAt0 : Json → Except Err Json
  | .arr (x :: _) => .ok x
  | .arr [] => .error .typeError
  | _ => .error .typeError

/-- The geocoding branch of `handleNetworkReply` (lines 59–76).  Returns
the updated state and `some (latitude, longitude)` when the air-quality
series request was issued, `none` when it was not.  When the `"results"`
member is missing or empty the `if` of line 60 simply falls through:
nothing is displayed, no error is reported, no request is issued. -/
def handleGeocode (s : AppState) (response : Json) :
    Except Err (AppState × Option (ℚ × ℚ)) :=
  match response.find? "results" with
  | none => .ok (s, none)
  | some results =>
    if results.isEmptyVal then .ok (s, none)
    else
      match jsonAt0 results with
      | .error e => .error e
      | .ok first =>
        match getNum (first.indexOrNull "latitude") with
        | .error e => .error e
        | .ok lat =>
          match getNum (first.indexOrNull "longitude") with
          | .error e => .error e
          | .ok lon =>
            match getString (first.indexOrNull "name") with
            | .error e => .error e
            | .ok nm =>
              match getString (first.indexOrNull "country") with
              | .error e => .error e
              | .ok ctry =>
                .ok ({ s with currentLocation := nm, currentCountry := ctry },
                     some (lat, lon))

/-- The air-quality branch of `handleNetworkReply` (lines 77–80): display,
then save; an exception from the display aborts before the save. -/
def handleAirQuality (s : AppState) (response : Json) :
    Except Err (DisplayResult × Json) :=
  match displayAirQualityData s response with
  | .error e => .error e
  | .ok r => .ok (r, saveToJsonFile r.state response)

/-! ### Evaluation lemmas for the JSON conversions -/

theorem getNumList_map_num (qs : List ℚ) :
    getNumList (qs.map Json.num) = Except.ok qs := by
  induction qs with
  | nil => rfl
  | cons q qs ih => simp [getNumList, getNum, ih]

theorem getVecNum_map_num (qs : List ℚ) :
    getVecNum (Json.arr (qs.map Json.num)) = Except.ok qs := by
  simp [getVecNum, getNumList_map_num]

theorem getNumList_of_null_mem (xs : List Json) (h : Json.null ∈ xs) :
    getNumList xs = Except.error Err.typeError := by
  induction xs with
  | nil => cases h
  | cons x xs ih =>
    rcases List.mem_cons.mp h with h1 | h1
    · subst h1; rfl
    · simp only [getNumList]
      cases hx : getNum x with
      | error e =>
        have he : e = Err.typeError := by
          cases x <;> simp [getNum] at hx <;> exact hx.symm
        rw [he]
      | ok q => rw [ih h1]

theorem getStrList_map_str (ts : List String) :
    getStrList (ts.map Json.str) = Except.ok ts := by
  induction ts with
  | nil => rfl
  | cons t ts ih => simp [getStrList, getString, ih]

theorem getVecStr_map_str (ts : List String) :
    getVecStr (Json.arr (ts.map Json.str)) = Except.ok ts := by
  simp [getVecStr, getStrList_map_str]

theorem getStrList_error (xs : List Json) (e : Err)
    (h : getStrList xs = Except.error e) : e = Err.typeError := by
  induction xs with
  | nil => simp [getStrList] at h
  | cons x xs ih =>
    simp only [getStrList] at h
    cases hx : getString x with
    | error e1 =>
      rw [hx] at h
      simp only at h
      injection h with h
      have he1 : e1 = Err.typeError := by
        cases x <;> simp [getString] at hx <;> exact hx.symm
      rw [← h]; exact he1
    | ok s =>
      rw [hx] at h
      simp only at h
      cases hxs : getStrList xs with
      | error e2 =>
        rw [hxs] at h
        simp only at h
        injection h with h
        exact ih (h ▸ hxs)
      | ok l =>
        rw [hxs] at h
        simp at h

theorem getVecStr_error (j : Json) (e : Err) (h : getVecStr j = Except.error e) :
    e = Err.typeError := by
  cases j with
  | arr xs => exact getStrList_error xs e h
  | null => simp only [getVecStr] at h; injection h with h; exact h.symm
  | num q => simp only [getVecStr] at h; injection h with h; exact h.symm
  | str s => simp only [getVecStr] at h; injection h with h; exact h.symm
  | obj kvs => simp only [getVecStr] at h; injection h with h; exact h.symm

/-! ### Bounds of the minmax scan and of the left-to-right sum -/

theorem minmaxStep_fst_le (mm : ℚ × ℚ) (v : ℚ) :
    (minmaxStep mm v).1 ≤ mm.1 ∧ (minmaxStep mm v).1 ≤ v := by
  unfold minmaxStep
  constructor <;> dsimp only <;> split <;>
    first | exact le_refl _ | exact le_of_lt (by assumption) | exact le_of_not_lt (by assumption)

theorem minmaxStep_snd_ge (mm : ℚ × ℚ) (v : ℚ) :
    mm.2 ≤ (minmaxStep mm v).2 ∧ v ≤ (minmaxStep mm v).2 := by
  unfold minmaxStep
  constructor <;> dsimp only <;> split <;>
    first | exact le_refl _ | exact le_of_lt (by assumption) | exact le_of_not_lt (by assumption)

theorem foldl_minmax_init (xs : List ℚ) :
    ∀ mm : ℚ × ℚ, (xs.foldl minmaxStep mm).1 ≤ mm.1 ∧ mm.2 ≤ (xs.foldl minmaxStep mm).2 := by
  induction xs with
  | nil => intro mm; exact ⟨le_refl _, le_refl _⟩
  | cons v xs ih =>
    intro mm
    simp only [List.foldl_cons]
    exact ⟨le_trans (ih (minmaxStep mm v)).1 (minmaxStep_fst_le mm v).1,
           le_trans (minmaxStep_snd_ge mm v).1 (ih (minmaxStep mm v)).2⟩

theorem foldl_minmax_mem (xs : List ℚ) :
    ∀ (mm : ℚ × ℚ) (y : ℚ), y ∈ xs →
      (xs.foldl minmaxStep mm).1 ≤ y ∧ y ≤ (xs.foldl minmaxStep mm).2 := by
  induction xs with
  | nil => intro mm y hy; cases hy
  | cons v xs ih =>
    intro mm y hy
    simp only [List.foldl_cons]
    rcases List.mem_cons.mp hy with h1 | h1
    · subst h1
      exact ⟨le_trans (foldl_minmax_init xs (minmaxStep mm y)).1 (minmaxStep_fst_le mm y).2,
             le_trans (minmaxStep_snd_ge mm y).2 (foldl_minmax_init xs (minmaxStep mm y)).2⟩
    · exact ih (minmaxStep mm v) y h1

theorem minmaxElement_bounds (vs : List ℚ) (mn mx : ℚ)
    (h : minmaxElement vs = some (mn, mx)) :
    ∀ y ∈ vs, mn ≤ y ∧ y ≤ mx := by
  cases vs with
  | nil => simp [minmaxElement] at h
  | cons x xs =>
    simp only [minmaxElement, Option.some.injEq] at h
    intro y hy
    rcases List.mem_cons.mp hy with h1 | h1
    · subst h1
      refine ⟨?_, ?_⟩
      · have := (foldl_minmax_init xs (y, y)).1
        rw [h] at this; exact this
      · have := (foldl_minmax_init xs (y, y)).2
        rw [h] at this; exact this
    · have := foldl_minmax_mem xs (x, x) y h1
      rw [h] at this; exact this

theorem foldl_minmax_fst_mem (xs : List ℚ) :
    ∀ mm : ℚ × ℚ, (xs.foldl minmaxStep mm).1 = mm.1 ∨ (xs.foldl minmaxStep mm).1 ∈ xs := by
  induction xs with
  | nil => intro mm; exact Or.inl rfl
  | cons v xs ih =>
    intro mm
    simp only [List.foldl_cons]
    rcases ih (minmaxStep mm v) with h | h
    · rw [h]
      unfold minmaxStep
      dsimp only
      split
      · exact Or.inr (List.mem_cons_self _ _)
      · exact Or.inl rfl
    · exact Or.inr (List.mem_cons_of_mem v h)

theorem foldl_minmax_snd_mem (xs : List ℚ) :
    ∀ mm : ℚ × ℚ, (xs.foldl minmaxStep mm).2 = mm.2 ∨ (xs.foldl minmaxStep mm).2 ∈ xs := by
  induction xs with
  | nil => intro mm; exact Or.inl rfl
  | cons v xs ih =>
    intro mm
    simp only [List.foldl_cons]
    rcases ih (minmaxStep mm v) with h | h
    · rw [h]
      unfold minmaxStep
      dsimp only
      split
      · exact Or.inl rfl
      · exact Or.inr (List.mem_cons_self _ _)
    · exact Or.inr (List.mem_cons_of_mem v h)

/-- The dereferenced `minmax_element` iterators point at elements of the
vector: the scan only compares and selects, it never computes new values.
(These selection facts are exact in the source's IEEE doubles as well —
comparison and copying of doubles do not round.) -/
theorem minmaxElement_mem (vs : List ℚ) (mn mx : ℚ)
    (h : minmaxElement vs = some (mn, mx)) :
    mn ∈ vs ∧ mx ∈ vs := by
  cases vs with
  | nil => simp [minmaxElement] at h
  | cons x xs =>
    simp only [minmaxElement, Option.some.injEq] at h
    constructor
    · have h1 := foldl_minmax_fst_mem xs (x, x)
      rw [h] at h1
      rcases h1 with h1 | h1
      · have h2 : mn = x := h1
        rw [h2]; exact List.mem_cons_self _ _
      · exact List.mem_cons_of_mem x h1
    · have h1 := foldl_minmax_snd_mem xs (x, x)
      rw [h] at h1
      rcases h1 with h1 | h1
      · have h2 : mx = x := h1
        rw [h2]; exact List.mem_cons_self _ _
      · exact List.mem_cons_of_mem x h1

/-- On a non-empty series `summarizeValues` succeeds, and its `min`/`max`
are elements of the series bounding every value.  Nothing is asserted here
about `avg` relative to `min`/`max`: the source computes the mean with
IEEE-double `accumulate`/division, whose rounding can push the computed
mean outside `[min, max]` (e.g. three doubles `0.1`), while this model's
rational arithmetic is exact — so a mean bound would be provable in the
model yet false of the program. -/
theorem summarizeValues_ok_minmax (vs : List ℚ) (h : vs ≠ []) :
    ∃ ps : ParameterStats, summarizeValues vs = Except.ok ps ∧
      ps.min ∈ vs ∧ ps.max ∈ vs ∧ ∀ y ∈ vs, ps.min ≤ y ∧ y ≤ ps.max := by
  cases vs with
  | nil => exact absurd rfl h
  | cons x xs =>
    rcases hp : xs.foldl minmaxStep (x, x) with ⟨mn, mx⟩
    have hmme : minmaxElement (x :: xs) = some (mn, mx) := by
      simp [minmaxElement, hp]
    obtain ⟨hmn, hmx⟩ := minmaxElement_mem _ mn mx hmme
    refine ⟨⟨mn, mx, ((x :: xs).foldl (· + ·) 0) / (((x :: xs).length : ℚ))⟩,
      ?_, hmn, hmx, minmaxElement_bounds _ mn mx hmme⟩
    simp [summarizeValues, hmme]

/-! ### Claims about the statistics engine (C1, C4) -/

/-- C1 counterexample: for the series `[10, 20, 30, null]` (a `null` entry
being the API's representation of an absent value), the summarization of
`processParameter` does **not** return `{min: 10, max: 30, mean: 20}` — the
`get<std::vector<double>>` conversion throws on the `null` entry, so no
statistics are produced at all. -/
theorem c1_counterexample :
    summarize [Json.num 10, Json.num 20, Json.num 30, Json.null] ≠
      Except.ok ⟨10, 30, 20⟩ :=
  fun h => Except.noConfusion h

/-- C1 amended: `processParameter` does not filter absent values before
computing statistics; a `null` (absent) entry in the value array makes the
vector conversion throw `type_error`, so the series
`[10.0, 20.0, 30.0, null]` yields no statistics; only on the all-present
prefix `[10.0, 20.0, 30.0]` are `{min: 10, max: 30, mean: 20}` computed
(over all values, none excluded). -/
theorem c1_amended :
    summarize [Json.num 10, Json.num 20, Json.num 30, Json.null] =
      Except.error Err.typeError ∧
    summarize [Json.num 10, Json.num 20, Json.num 30] =
      Except.ok ⟨10, 30, 20⟩ := by
  refine ⟨rfl, ?_⟩
  simp [summarize, getVecNum, getNumList, getNum, summarizeValues,
    minmaxElement, minmaxStep]
  norm_num

/-- C4 counterexample: the series `[10, null]` has at least one present
value, yet `summarize` produces no `ParameterStatistics` at all — the
conversion throws on the absent entry — so neither the claimed idempotent
result nor `min ≤ mean ≤ max` can hold for it. -/
theorem c4_counterexample :
    summarize [Json.num 10, Json.null] = Except.error Err.typeError :=
  rfl

/-- C4 amended: for every series whose values are **all** present (a
non-empty all-numeric value array), `summarize` succeeds and any repeated
call yields the identical `ParameterStatistics` (the computation is
deterministic: fixed left-to-right accumulation, no hidden state).  Its
`min` and `max` are attained elements of the series with
`min ≤ y ≤ max` for every value `y` (hence `min ≤ max`) — facts produced
by comparison and selection alone, which are exact in the source's IEEE
doubles too.  The original `min ≤ mean ≤ max` is **not** asserted: the
source's rounded `accumulate`/divide can push the computed mean above
`max` (e.g. three doubles `0.1`), so that inequality is false of the
program even on all-present series. -/
theorem c4_amended (qs : List ℚ) (h : qs ≠ []) :
    ∃ ps : ParameterStats,
      summarize (qs.map Json.num) = Except.ok ps ∧
      (∀ ps' : ParameterStats,
        summarize (qs.map Json.num) = Except.ok ps' → ps' = ps) ∧
      ps.min ∈ qs ∧ ps.max ∈ qs ∧ ps.min ≤ ps.max ∧
      ∀ y ∈ qs, ps.min ≤ y ∧ y ≤ ps.max := by
  obtain ⟨ps, hps, hmn, hmx, hb⟩ := summarizeValues_ok_minmax qs h
  refine ⟨ps, ?_, ?_, hmn, hmx, (hb ps.max hmx).1, hb⟩
  · simp [summarize, getVecNum_map_num, hps]
  · intro ps' hps'
    simp [summarize, getVecNum_map_num, hps] at hps'
    exact hps'.symm

/-- C4 witness: the theorem applied to the concrete all-present series
`[3, 1, 2]`. -/
theorem c4_witness :
    ∃ ps : ParameterStats,
      summarize ([3, 1, 2].map Json.num) = Except.ok ps ∧
      (∀ ps' : ParameterStats,
        summarize ([3, 1, 2].map Json.num) = Except.ok ps' → ps' = ps) ∧
      ps.min ∈ [3, 1, 2] ∧ ps.max ∈ [3, 1, 2] ∧ ps.min ≤ ps.max ∧
      ∀ y ∈ [3, 1, 2], ps.min ≤ y ∧ y ≤ ps.max :=
  c4_amended [3, 1, 2] (by decide)

/-! ### Claims about input validation and the network stages (C5, C6, C7) -/

/-- C5: an address that is empty after trimming whitespace makes
`fetchAirQualityData` show the warning (the spec's `InvalidInputError`) and
return with **zero** network requests; for a non-empty trimmed address
exactly one geocoding request is issued. -/
theorem c5_empty_address_no_request (input : String) :
    ((qtrimmed input).isEmpty = true →
      fetchAirQualityData input = FetchOutcome.invalidInput) ∧
    ((qtrimmed input).isEmpty = false →
      fetchAirQualityData input = FetchOutcome.geocodeRequest (qtrimmed input)) := by
  constructor <;> intro h <;> simp [fetchAirQualityData, h]

/-- C5 witness: the whitespace-only input `"   "`. -/
theorem c5_witness :
    (qtrimmed "   ").isEmpty = true ∧
    fetchAirQualityData "   " = FetchOutcome.invalidInput :=
  ⟨by decide, (c5_empty_address_no_request "   ").1 (by decide)⟩

/-- C6 counterexample: on a geocoding response with `results: []` the
handler neither surfaces any error nor issues a request — it returns
silently (`.ok` with unchanged state and no series request), so `resolve`
does **not** fail with `NotFoundError` and nothing is forwarded to the
presentation collaborator. -/
theorem c6_counterexample :
    handleGeocode ⟨"", "", []⟩ (Json.obj [("results", Json.arr [])]) =
      Except.ok (⟨"", "", []⟩, none) :=
  rfl

/-- C6 amended: for every geocoding response whose `results` member is
missing or an empty array, the geocoding branch issues no series-fetch
request — but it also reports no error: the reply is silently ignored and
the state is left unchanged (the `if` of line 60 has no `else`). -/
theorem c6_amended (s : AppState) (resp : Json)
    (h : resp.find? "results" = none ∨ resp.find? "results" = some (Json.arr [])) :
    handleGeocode s resp = Except.ok (s, none) := by
  rcases h with h | h <;> simp [handleGeocode, h, Json.isEmptyVal]

/-- C6 witness: a response with no `results` member at all. -/
theorem c6_witness :
    handleGeocode ⟨"L", "C", []⟩ (Json.obj [("hits", Json.num 0)]) =
      Except.ok (⟨"L", "C", []⟩, none) :=
  c6_amended _ _ (Or.inl rfl)

/-- C7 counterexample: with two timestamps but a one-element `pm10` value
array (a length mismatch), `processParameter` does **not** fail with any
error — it computes and stores statistics over the mismatched value array. -/
theorem c7_counterexample :
    processParameter
        (Json.obj [("pm10", Json.arr [Json.num 1]),
                   ("time", Json.arr [Json.str "a", Json.str "b"])])
        "pm10" [] =
      Except.ok ([("pm10", ⟨1, 1, 1⟩)], true) := by
  simp [processParameter, Json.find?, Json.lookupKV, getVecNum, getNumList,
    getNum, getVecStr, getStrList, getString, summarizeValues, minmaxElement,
    minmaxStep, createChart, StatsMap.insert]

/-- C7 amended: a missing timestamp array does make the stage fail — the
string-vector conversion of `hourly["time"]` throws, surfaced as the
processing-error dialog (the spec's `MalformedResponseError`) — but a
length mismatch between a present parameter's value array and the
timestamp array is **not** detected: statistics are computed and stored
over the mismatched data without error (and when the value array is the
longer one, chart creation indexes the timestamp vector out of bounds). -/
theorem c7_amended :
    (∀ (s : AppState) (data hourly : Json), data.find? "hourly" = some hourly →
      hourly.find? "time" = none →
      displayAirQualityData s data = Except.error Err.typeError) ∧
    processParameter
        (Json.obj [("pm10", Json.arr [Json.num 1]),
                   ("time", Json.arr [Json.str "a", Json.str "b"])])
        "pm10" [] =
      Except.ok ([("pm10", ⟨1, 1, 1⟩)], true) := by
  constructor
  · intro s data hourly hh ht
    simp [displayAirQualityData, hh, Json.indexOrNull, ht, getVecStr]
  · simp [processParameter, Json.find?, Json.lookupKV, getVecNum, getNumList,
      getNum, getVecStr, getStrList, getString, summarizeValues, minmaxElement,
      minmaxStep, createChart, StatsMap.insert]

/-- C7 witness: the missing-timestamp half of the amended theorem applied
to a concrete response whose `hourly` object has no `time` member. -/
theorem c7_witness :
    displayAirQualityData ⟨"", "", []⟩
        (Json.obj [("hourly", Json.obj [("pm10", Json.arr [Json.num 1])])]) =
      Except.error Err.typeError :=
  c7_amended.1 _ _ _ rfl rfl

/-! ### Claims about persisted-file loading (C9) -/

/-- C9: a persisted file whose top-level object lacks any of the
`location`, `station` or `air_quality_data` members is rejected by
`loadFromFile` with the invalid-format warning (the spec's
`InvalidFileFormatError`); none of the file's data is displayed or adopted
(the members of `WeatherApp` are only assigned inside the success branch). -/
theorem c9_missing_block_invalid_format (s : AppState) (data : Json)
    (h : (data.hasKey "location" && data.hasKey "station" &&
          data.hasKey "air_quality_data") = false) :
    loadFromFile s data = Except.error LoadErr.invalidFileFormat := by
  simp only [loadFromFile, h, Bool.false_eq_true, if_false]

/-- C9 witness: a file with `location` and `air_quality_data` but no
`station` member. -/
theorem c9_witness :
    loadFromFile ⟨"", "", []⟩
        (Json.obj [("air_quality_data", Json.obj []),
                   ("location", Json.str "Warszawa")]) =
      Except.error LoadErr.invalidFileFormat :=
  c9_missing_block_invalid_format _ _ (by decide)

/-! ### Claims about per-parameter error handling (C3, C8) -/

/-- C3 counterexample: `pm10`'s value array is all-absent (`[null]`) while
`pm2_5` has a present value `5`.  The claim says the empty-after-filtering
parameter fails with `EmptySeriesError`, caught per-parameter, with the
other parameters still summarized.  In fact the conversion of `pm10`'s
array throws `type_error`, the exception propagates out of
`displayAirQualityData` (there is no per-parameter catch), and `pm2_5` is
never summarized. -/
theorem c3_counterexample :
    displayAirQualityData ⟨"", "", []⟩
        (Json.obj [("hourly",
          Json.obj [("pm10", Json.arr [Json.null]),
                    ("pm2_5", Json.arr [Json.num 5]),
                    ("time", Json.arr [Json.str "t"])])]) =
      Except.error Err.typeError := by
  simp [displayAirQualityData, processParameter, Json.find?, Json.lookupKV,
    Json.indexOrNull, getVecNum, getNumList, getNum, getVecStr, getStrList,
    getString]

/-- C3 amended: there is no `EmptySeriesError` and no per-parameter catch.
A `null` (absent) entry in the first processed parameter's (`pm10`) value
array — in particular an all-absent array — makes the vector conversion
throw `type_error`, aborting the **entire** display: no parameter receives
statistics and the generic processing-error dialog is shown.  An empty
value array instead reaches `minmax_element` whose dereferenced result is
the end iterator (undefined behaviour). -/
theorem c3_amended (s : AppState) (data hourly : Json) (vs : List Json)
    (hh : data.find? "hourly" = some hourly)
    (hp : hourly.find? "pm10" = some (Json.arr vs))
    (hnull : Json.null ∈ vs) :
    displayAirQualityData s data = Except.error Err.typeError ∧
    summarize vs = Except.error Err.typeError ∧
    summarizeValues [] = Except.error Err.ubEmptyDeref := by
  have hconv : getNumList vs = Except.error Err.typeError :=
    getNumList_of_null_mem vs hnull
  refine ⟨?_, ?_, rfl⟩
  · cases hts : getVecStr (hourly.indexOrNull "time") with
    | error e =>
      have he := getVecStr_error _ _ hts
      subst he
      simp [displayAirQualityData, hh, hts]
    | ok ts =>
      simp [displayAirQualityData, hh, hts, processParameter, hp, getVecNum, hconv]
  · simp [summarize, getVecNum, hconv]

/-- C3 witness: the amended theorem applied to a response whose `pm10`
array contains an absent entry next to a present one. -/
theorem c3_witness :
    displayAirQualityData ⟨"A", "B", []⟩
        (Json.obj [("hourly",
          Json.obj [("pm10", Json.arr [Json.null, Json.num 7]),
                    ("time", Json.arr [Json.str "t"])])]) =
      Except.error Err.typeError ∧
    summarize [Json.null, Json.num 7] = Except.error Err.typeError ∧
    summarizeValues [] = Except.error Err.ubEmptyDeref :=
  c3_amended ⟨"A", "B", []⟩ _ _ [Json.null, Json.num 7] rfl rfl
    (List.mem_cons_self _ _)

/-- C8: a requested parameter that is entirely absent from the response
(key missing or value `null`, here `pm2_5`) is skipped by the guard of
line 130 instead of failing the fetch: the display run is not aborted and
the remaining parameters are processed, displayed and summarized exactly
as they would otherwise be. -/
theorem c8_absent_parameter_skipped (s : AppState) (data hourly : Json)
    (ts : List String) (st1 st3 : StatsMap) (b1 b3 : Bool)
    (hh : data.find? "hourly" = some hourly)
    (ht : getVecStr (hourly.indexOrNull "time") = Except.ok ts)
    (habs : hourly.find? "pm2_5" = none ∨ hourly.find? "pm2_5" = some Json.null)
    (h1 : processParameter hourly "pm10" s.parameterStats = Except.ok (st1, b1))
    (h3 : processParameter hourly "nitrogen_dioxide" st1 = Except.ok (st3, b3)) :
    displayAirQualityData s data =
      Except.ok ⟨{ s with parameterStats := st3 },
        (if b1 then ["pm10"] else []) ++ (if b3 then ["nitrogen_dioxide"] else []),
        true⟩ := by
  have h2 : processParameter hourly "pm2_5" st1 = Except.ok (st1, false) := by
    rcases habs with h | h <;> simp [processParameter, h]
  simp [displayAirQualityData, hh, ht, h1, h2, h3]

/-- C8 witness: `pm2_5` is `null` in the response; `pm10` and
`nitrogen_dioxide` are present, get processed, and both their statistics
are recorded. -/
theorem c8_witness :
    displayAirQualityData ⟨"L", "C", []⟩
        (Json.obj [("hourly",
          Json.obj [("nitrogen_dioxide", Json.arr [Json.num 3]),
                    ("pm10", Json.arr [Json.num 1]),
                    ("pm2_5", Json.null),
                    ("time", Json.arr [Json.str "t"])])]) =
      Except.ok ⟨⟨"L", "C", [("nitrogen_dioxide", ⟨3, 3, 3⟩), ("pm10", ⟨1, 1, 1⟩)]⟩,
                 ["pm10", "nitrogen_dioxide"], true⟩ := by
  have h := c8_absent_parameter_skipped ⟨"L", "C", []⟩
    (Json.obj [("hourly",
      Json.obj [("nitrogen_dioxide", Json.arr [Json.num 3]),
                ("pm10", Json.arr [Json.num 1]),
                ("pm2_5", Json.null),
                ("time", Json.arr [Json.str "t"])])])
    (Json.obj [("nitrogen_dioxide", Json.arr [Json.num 3]),
               ("pm10", Json.arr [Json.num 1]),
               ("pm2_5", Json.null),
               ("time", Json.arr [Json.str "t"])])
    ["t"] [("pm10", ⟨1, 1, 1⟩)]
    [("nitrogen_dioxide", ⟨3, 3, 3⟩), ("pm10", ⟨1, 1, 1⟩)] true true
    rfl
    (by simp [Json.indexOrNull, Json.find?, Json.lookupKV, getVecStr, getStrList,
      getString])
    (Or.inr rfl)
    (by simp [processParameter, Json.find?, Json.lookupKV, getVecNum, getNumList,
      getNum, getVecStr, getStrList, getString, summarizeValues, minmaxElement,
      minmaxStep, createChart, StatsMap.insert])
    (by simp [processParameter, Json.find?, Json.lookupKV, getVecNum, getNumList,
      getNum, getVecStr, getStrList, getString, summarizeValues, minmaxElement,
      minmaxStep, createChart, StatsMap.insert]
        <;> decide)
  simpa using h

/-! ### Inversion of a successful display run, and `parameterStats` frame lemmas -/

theorem display_ok_inversion (s : AppState) (data : Json) (r : DisplayResult)
    (hd : displayAirQualityData s data = Except.ok r) :
    (data.find? "hourly" = none ∧ r = ⟨s, [], false⟩) ∨
    ∃ hourly ts st1 st2 st3 b1 b2 b3,
      data.find? "hourly" = some hourly ∧
      getVecStr (hourly.indexOrNull "time") = Except.ok ts ∧
      processParameter hourly "pm10" s.parameterStats = Except.ok (st1, b1) ∧
      processParameter hourly "pm2_5" st1 = Except.ok (st2, b2) ∧
      processParameter hourly "nitrogen_dioxide" st2 = Except.ok (st3, b3) ∧
      r = ⟨{ s with parameterStats := st3 },
           (if b1 then ["pm10"] else []) ++ (if b2 then ["pm2_5"] else [])
             ++ (if b3 then ["nitrogen_dioxide"] else []), true⟩ := by
  unfold displayAirQualityData at hd
  cases hfind : data.find? "hourly" with
  | none =>
    rw [hfind] at hd
    dsimp only at hd
    injection hd with h'
    exact Or.inl ⟨rfl, h'.symm⟩
  | some hourly =>
    rw [hfind] at hd
    dsimp only at hd
    cases hts : getVecStr (hourly.indexOrNull "time") with
    | error e => rw [hts] at hd; dsimp only at hd; cases hd
    | ok ts =>
      rw [hts] at hd
      dsimp only at hd
      cases h1 : processParameter hourly "pm10" s.parameterStats with
      | error e => rw [h1] at hd; dsimp only at hd; cases hd
      | ok p1 =>
        obtain ⟨st1, b1⟩ := p1
        rw [h1] at hd
        dsimp only at hd
        cases h2 : processParameter hourly "pm2_5" st1 with
        | error e => rw [h2] at hd; dsimp only at hd; cases hd
        | ok p2 =>
          obtain ⟨st2, b2⟩ := p2
          rw [h2] at hd
          dsimp only at hd
          cases h3 : processParameter hourly "nitrogen_dioxide" st2 with
          | error e => rw [h3] at hd; dsimp only at hd; cases hd
          | ok p3 =>
            obtain ⟨st3, b3⟩ := p3
            rw [h3] at hd
            dsimp only at hd
            injection hd with h'
            exact Or.inr ⟨hourly, ts, st1, st2, st3, b1, b2, b3, rfl, hts, h1, h2,
              h3, h'.symm⟩

theorem display_preserves_location (s : AppState) (data : Json) (r : DisplayResult)
    (hd : displayAirQualityData s data = Except.ok r) :
    r.state.currentLocation = s.currentLocation ∧
    r.state.currentCountry = s.currentCountry := by
  rcases display_ok_inversion s data r hd with ⟨_, h⟩ | ⟨_, _, _, _, _, _, _, _, _, _, _, _, _, h⟩ <;>
    subst h <;> exact ⟨rfl, rfl⟩

theorem StatsMap.find_insert_ne (m : StatsMap) (k p : String) (v : ParameterStats)
    (h : p ≠ k) :
    StatsMap.find? (StatsMap.insert m k v) p = StatsMap.find? m p := by
  induction m with
  | nil => simp [StatsMap.insert, StatsMap.find?, h]
  | cons kv rest ih =>
    obtain ⟨k', v'⟩ := kv
    by_cases h1 : k < k'
    · simp [StatsMap.insert, h1, StatsMap.find?, h]
    · by_cases h2 : k = k'
      · subst h2
        simp [StatsMap.insert, h1, StatsMap.find?, h]
      · simp [StatsMap.insert, h1, h2, StatsMap.find?, ih]

/-- A `processParameter` call for parameter `q` leaves the entry of any
parameter `p` that is absent from the response untouched: either `q = p`
and the guard of line 130 skips the whole body, or `q ≠ p` and the
insertion touches only key `q`. -/
theorem processParameter_preserves_absent (hourly : Json) (q p : String)
    (st st' : StatsMap) (b : Bool)
    (habs : hourly.find? p = none ∨ hourly.find? p = some Json.null)
    (hq : processParameter hourly q st = Except.ok (st', b)) :
    StatsMap.find? st' p = StatsMap.find? st p := by
  by_cases hqp : q = p
  · subst hqp
    have hskip : processParameter hourly q st = Except.ok (st, false) := by
      rcases habs with h | h <;> simp [processParameter, h]
    rw [hskip] at hq
    injection hq with h'
    injection h' with ha hb
    rw [← ha]
  · unfold processParameter at hq
    split at hq
    · injection hq with h'
      injection h' with ha hb
      rw [← ha]
    · injection hq with h'
      injection h' with ha hb
      rw [← ha]
    · split at hq
      · cases hq
      · split at hq
        · cases hq
        · split at hq
          · cases hq
          · split at hq
            · cases hq
            · split at hq
              · cases hq
              · injection hq with h'
                injection h' with ha hb
                rw [← ha]
                exact StatsMap.find_insert_ne st q p _ fun hpq => hqp hpq.symm

/-- The `"statistics"` object written by `saveToJsonFile` holds exactly the
entries of `parameterStats`. -/
theorem statsToJson_find (m : StatsMap) (p : String) :
    Json.find? (statsToJson m) p =
      Option.map (fun v => Json.obj [("avg", Json.num v.avg),
        ("max", Json.num v.max), ("min", Json.num v.min)])
        (StatsMap.find? m p) := by
  induction m with
  | nil => rfl
  | cons kv rest ih =>
    obtain ⟨k', v'⟩ := kv
    simp only [statsToJson, List.map_cons, Json.find?, Json.lookupKV,
      StatsMap.find?] at *
    by_cases hp : p = k' <;> simp [hp, ih]

/-! ### Claims about persistence (C2, C10) -/

/-- C10: `displayAirQualityData` clears the text panels and the charts but
never `parameterStats`, and `processParameter` skips (without erasing) any
parameter absent from the current document.  Hence an entry computed in an
earlier run for a parameter that is `null`/missing in the currently
displayed document survives the run unchanged, and `saveToJsonFile` writes
that stale entry into the new file's `statistics` block: the saved
statistics are a function of the session history, not only of the current
document. -/
theorem c10_stale_stats_saved (s : AppState) (data hourly : Json) (p : String)
    (v : ParameterStats) (r : DisplayResult)
    (hh : data.find? "hourly" = some hourly)
    (habs : hourly.find? p = none ∨ hourly.find? p = some Json.null)
    (hv : StatsMap.find? s.parameterStats p = some v)
    (hd : displayAirQualityData s data = Except.ok r) :
    StatsMap.find? r.state.parameterStats p = some v ∧
    Json.find? (statsToJson r.state.parameterStats) p =
      some (Json.obj [("avg", Json.num v.avg), ("max", Json.num v.max),
                      ("min", Json.num v.min)]) := by
  have key : StatsMap.find? r.state.parameterStats p = some v := by
    rcases display_ok_inversion s data r hd with ⟨hn, _⟩ |
      ⟨h0, ts, st1, st2, st3, b1, b2, b3, hf, hts, h1, h2, h3, hr⟩
    · rw [hn] at hh; cases hh
    · rw [hh] at hf
      injection hf with hf0
      subst hf0
      subst hr
      have e1 := processParameter_preserves_absent _ "pm10" p _ _ _ habs h1
      have e2 := processParameter_preserves_absent _ "pm2_5" p _ _ _ habs h2
      have e3 := processParameter_preserves_absent _ "nitrogen_dioxide" p _ _ _ habs h3
      show StatsMap.find? st3 p = some v
      rw [e3, e2, e1]
      exact hv
  refine ⟨key, ?_⟩
  rw [statsToJson_find, key]
  rfl

/-- C10 witness: the session holds stale `pm10` statistics `{9,9,9}` from
an earlier run; the current document has `pm10: null`.  After the display
run the stale entry is still there and appears in the saved `statistics`
object. -/
theorem c10_witness :
    StatsMap.find?
        [("pm10", (⟨9, 9, 9⟩ : ParameterStats)), ("pm2_5", ⟨2, 2, 2⟩)] "pm10" =
      some ⟨9, 9, 9⟩ ∧
    Json.find?
        (statsToJson [("pm10", ⟨9, 9, 9⟩), ("pm2_5", ⟨2, 2, 2⟩)]) "pm10" =
      some (Json.obj [("avg", Json.num 9), ("max", Json.num 9),
                      ("min", Json.num 9)]) := by
  have h := c10_stale_stats_saved ⟨"L", "C", [("pm10", ⟨9, 9, 9⟩)]⟩
    (Json.obj [("hourly",
      Json.obj [("pm10", Json.null), ("pm2_5", Json.arr [Json.num 2]),
                ("time", Json.arr [Json.str "t"])])])
    (Json.obj [("pm10", Json.null), ("pm2_5", Json.arr [Json.num 2]),
               ("time", Json.arr [Json.str "t"])])
    "pm10" ⟨9, 9, 9⟩
    ⟨⟨"L", "C", [("pm10", ⟨9, 9, 9⟩), ("pm2_5", ⟨2, 2, 2⟩)]⟩, ["pm2_5"], true⟩
    rfl (Or.inr rfl) rfl
    (by simp [displayAirQualityData, processParameter, Json.find?, Json.lookupKV,
      Json.indexOrNull, getVecNum, getNumList, getNum, getVecStr, getStrList,
      getString, summarizeValues, minmaxElement, minmaxStep, createChart,
      StatsMap.insert]
        <;> decide)
  simpa using h

/-- C2 counterexample: the round trip is **not** universal over successful
pipeline runs.  A session carries `pm10` statistics `{9,9,9}` from an
earlier run; the next run's document has `pm10: null` and `pm2_5: [2]`.
That run succeeds (first conjunct) and its saved state still holds the
stale `pm10` entry (third conjunct, the C10 mechanism), which
`saveToJsonFile` writes into the file's statistics block.  Loading that
file in a fresh session succeeds (second conjunct) but recomputes
statistics from the series alone, so the loaded map has **no** `pm10`
entry (fourth conjunct): the loaded document does not have the same
per-parameter statistics as the saved one. -/
theorem c2_counterexample :
    displayAirQualityData ⟨"L", "C", [("pm10", ⟨9, 9, 9⟩)]⟩
        (Json.obj [("hourly",
          Json.obj [("pm10", Json.null), ("pm2_5", Json.arr [Json.num 2]),
                    ("time", Json.arr [Json.str "t"])])]) =
      Except.ok ⟨⟨"L", "C", [("pm10", ⟨9, 9, 9⟩), ("pm2_5", ⟨2, 2, 2⟩)]⟩,
                 ["pm2_5"], true⟩ ∧
    loadFromFile ⟨"", "", []⟩
        (saveToJsonFile ⟨"L", "C", [("pm10", ⟨9, 9, 9⟩), ("pm2_5", ⟨2, 2, 2⟩)]⟩
          (Json.obj [("hourly",
            Json.obj [("pm10", Json.null), ("pm2_5", Json.arr [Json.num 2]),
                      ("time", Json.arr [Json.str "t"])])])) =
      Except.ok (⟨"L", "C", [("pm2_5", ⟨2, 2, 2⟩)]⟩, ["pm2_5"]) ∧
    StatsMap.find? [("pm10", ⟨9, 9, 9⟩), ("pm2_5", ⟨2, 2, 2⟩)] "pm10" =
      some ⟨9, 9, 9⟩ ∧
    StatsMap.find? [("pm2_5", (⟨2, 2, 2⟩ : ParameterStats))] "pm10" = none := by
  refine ⟨?_, ?_, rfl, rfl⟩
  · simp [displayAirQualityData, processParameter, Json.find?, Json.lookupKV,
      Json.indexOrNull, getVecNum, getNumList, getNum, getVecStr, getStrList,
      getString, summarizeValues, minmaxElement, minmaxStep, createChart,
      StatsMap.insert]
      <;> decide
  · simp [loadFromFile, Json.hasKey, displayAirQualityData, processParameter,
      Json.find?, Json.lookupKV, Json.indexOrNull, getVecNum, getNumList,
      getNum, getVecStr, getStrList, getString, summarizeValues, minmaxElement,
      minmaxStep, createChart, StatsMap.insert, saveToJsonFile, statsToJson]

/-- C2 amended: the round trip holds for documents produced by a successful
run of a **fresh** session (one whose `parameterStats` map is empty when
the run starts — the saved statistics then describe exactly the current
document).  For such a document the file written by `saveToJsonFile` loads
back in a fresh session and reproduces the equivalent document: the same
location, the same station, the same raw series (`air_quality_data` is
stored verbatim), and — because `displayAirQualityData` recomputes them
deterministically from the same series — the same per-parameter
statistics; the file also carries the statistics block itself.  After
prior session history the saved statistics block can contain stale entries
that loading does not reproduce (see the counterexample). -/
theorem c2_roundtrip (loc country l0 c0 : String) (data : Json) (r : DisplayResult)
    (hd : displayAirQualityData ⟨loc, country, []⟩ data = Except.ok r) :
    loadFromFile ⟨l0, c0, []⟩ (saveToJsonFile r.state data) =
      Except.ok (r.state, r.shown) ∧
    Json.find? (saveToJsonFile r.state data) "air_quality_data" = some data ∧
    Json.find? (saveToJsonFile r.state data) "location" =
      some (Json.str r.state.currentLocation) ∧
    Json.find? (saveToJsonFile r.state data) "station" =
      some (Json.str r.state.currentCountry) ∧
    Json.find? (saveToJsonFile r.state data) "statistics" =
      some (statsToJson r.state.parameterStats) := by
  obtain ⟨hloc, hcountry⟩ := display_preserves_location _ _ _ hd
  refine ⟨?_, rfl, rfl, rfl, rfl⟩
  have hred : loadFromFile ⟨l0, c0, []⟩ (saveToJsonFile r.state data) =
      (match displayAirQualityData
          ⟨r.state.currentLocation, r.state.currentCountry, []⟩ data with
       | .error e => Except.error (LoadErr.processing e)
       | .ok r' => Except.ok (r'.state, r'.shown)) := rfl
  rw [hred, hloc, hcountry, hd]

/-- C2 witness: a concrete fresh run over a one-sample `pm10` series,
saved and re-loaded. -/
theorem c2_witness :
    loadFromFile ⟨"", "", []⟩
        (saveToJsonFile ⟨"Warszawa", "Poland", [("pm10", ⟨4, 4, 4⟩)]⟩
          (Json.obj [("hourly",
            Json.obj [("pm10", Json.arr [Json.num 4]),
                      ("time", Json.arr [Json.str "t"])])])) =
      Except.ok (⟨"Warszawa", "Poland", [("pm10", ⟨4, 4, 4⟩)]⟩, ["pm10"]) := by
  have h := c2_roundtrip "Warszawa" "Poland" "" ""
    (Json.obj [("hourly",
      Json.obj [("pm10", Json.arr [Json.num 4]),
                ("time", Json.arr [Json.str "t"])])])
    ⟨⟨"Warszawa", "Poland", [("pm10", ⟨4, 4, 4⟩)]⟩, ["pm10"], true⟩
    (by simp [displayAirQualityData, processParameter, Json.find?, Json.lookupKV,
      Json.indexOrNull, getVecNum, getNumList, getNum, getVecStr, getStrList,
      getString, summarizeValues, minmaxElement, minmaxStep, createChart,
      StatsMap.insert])
  exact h.1
